import Mathlib

/-!
# Verification of the MOFAX_Online Streamlit dashboard

Shallow embedding of `src/MOFAX_STREAMLIT.py` (a single Streamlit script that
uploads a MOFA+ HDF5 model, opens it through the external `mofax` reader, and
renders metrics, tables, charts and CSV downloads).

External collaborators (`mofax`, `pandas`, `streamlit`, `tempfile`) are not
part of the repository; where a property depends on their behaviour they are
modelled from the specification, each such definition carrying a doc comment
that says so. Numeric table cells are modelled as integers; decimal rendering
models Python's `str` / `"{:,}".format` and CSV field formatting.
-/

namespace MofaxOnline

/-! ## Decimal field codec

Models Python/pandas rendering of a numeric cell to decimal text (`str(i)`,
used by `DataFrame.to_csv`) and the standard re-parsing of such a field
(`pandas.read_csv`). -/

/-- A character is a decimal digit `'0'..'9'`. -/
def isDigitChar (c : Char) : Bool :=
  '0' ≤ c && c ≤ '9'

/-- Parse one decimal digit character. -/
def charToDigit (c : Char) : Option Nat :=
  if isDigitChar c then some (c.toNat - '0'.toNat) else none

/-- Parse a string of digit characters, most significant first. -/
def digitVals : List Char → Option (List Nat)
  | [] => some []
  | c :: rest =>
    match charToDigit c, digitVals rest with
    | some d, some ds => some (d :: ds)
    | _, _ => none

/-- Parse a nonempty decimal numeral (most significant digit first) to a
natural number. -/
def parseNatChars (cs : List Char) : Option Nat :=
  match cs with
  | [] => none
  | _ =>
    match digitVals cs with
    | some ds => some (Nat.ofDigits 10 ds.reverse)
    | none => none

/-- Decimal digit characters of `n`, most significant first
(Python `str(n)` for a nonnegative integer). -/
def natToChars (n : Nat) : List Char :=
  if n = 0 then ['0'] else ((Nat.digits 10 n).map Nat.digitChar).reverse

/-- Decimal text of a Python integer (`str(i)`): optional minus sign then
digits. -/
def intToChars (i : Int) : List Char :=
  if i < 0 then '-' :: natToChars i.natAbs else natToChars i.toNat

/-- Parse an optionally-signed decimal numeral to an integer. -/
def parseIntChars (cs : List Char) : Option Int :=
  match cs with
  | [] => none
  | c :: rest =>
    if c = '-' then (parseNatChars rest).map (fun n => -(n : Int))
    else (parseNatChars cs).map (fun n => (n : Int))

/-- One CSV field holding the decimal rendering of integer `i`. -/
def intField (i : Int) : String :=
  ⟨intToChars i⟩

/-- Modelled from the spec: the CSV re-parser (`pandas.read_csv`) interprets
a data field as a decimal integer. -/
def parseIntField (s : String) : Option Int :=
  parseIntChars s.data

/-! ## Thousands-separator formatting

Models Python's `"{:,}".format(n)` used by the metric cards at lines 140 and
148 of `MOFAX_STREAMLIT.py`: the decimal digits of `n` grouped in threes
from the right, groups joined by commas. -/

/-- Split a list into groups of three, keeping order (applied to the
little-endian digit list, so grouping starts at the units digit). -/
def chunk3 : List Char → List (List Char)
  | [] => []
  | [a] => [[a]]
  | [a, b] => [[a, b]]
  | a :: b :: c :: rest => [a, b, c] :: chunk3 rest

/-- Join character groups with a comma between consecutive groups. -/
def joinComma : List (List Char) → List Char
  | [] => []
  | [g] => g
  | g :: g' :: gs => g ++ ',' :: joinComma (g' :: gs)

/-- Python `"{:,}".format(n)`: the decimal digits of `n` with a comma every
three digits counting from the right. -/
def commaFormat (n : Nat) : String :=
  if n = 0 then "0"
  else ⟨(joinComma (chunk3 ((Nat.digits 10 n).map Nat.digitChar))).reverse⟩

/-- Re-parse a thousands-separated numeral: drop the commas, read the
digits. -/
def parseCommaNat (s : String) : Option Nat :=
  parseNatChars (s.data.filter (fun c => c ≠ ','))

/-! ## DataFrames and CSV

The tables the script passes around are pandas DataFrames; numeric cells are
modelled as integers. A CSV is modelled at record level: a list of records,
each a list of fields. -/

/-- A pandas DataFrame: row labels, column labels, and the value matrix. -/
structure DataFrame where
  index : List String
  columns : List String
  values : List (List Int)
deriving DecidableEq

/-- Pandas `df.shape`: (number of rows, number of columns). -/
def DataFrame.shape (df : DataFrame) : Nat × Nat :=
  (df.values.length, df.columns.length)

/-- Modelled from the spec: `pandas.DataFrame.to_csv`. With `index=False`
the header record is the column names and each data record holds the
formatted values; with `index=True` pandas additionally prepends the row
label to every record. -/
def DataFrame.to_csv (df : DataFrame) (index : Bool) : List (List String) :=
  if index then
    ("" :: df.columns) ::
      (df.index.zip df.values).map (fun p => p.1 :: p.2.map intField)
  else
    df.columns :: df.values.map (fun row => row.map intField)

/-- Parse one CSV data record into a row of integers. -/
def parseRow : List String → Option (List Int)
  | [] => some []
  | s :: rest =>
    match parseIntField s, parseRow rest with
    | some i, some r => some (i :: r)
    | _, _ => none

/-- Parse the CSV data records into a value matrix. -/
def parseRows : List (List String) → Option (List (List Int))
  | [] => some []
  | r :: rest =>
    match parseRow r, parseRows rest with
    | some v, some vs => some (v :: vs)
    | _, _ => none

/-- Modelled from the spec: `pandas.read_csv` — the first record is the
header (column names), the remaining records are integer data rows, and the
re-parsed frame gets a fresh positional index `0..n-1`. -/
def read_csv (csv : List (List String)) : Option DataFrame :=
  match csv with
  | [] => none
  | header :: rows =>
    match parseRows rows with
    | some vals =>
      some ⟨(List.range vals.length).map (fun k => String.mk (natToChars k)),
        header, vals⟩
    | none => none

/-! ## The model handle and its accessors

`MOFAX_STREAMLIT.py` line 129: `m = mfx.mofa_model(temp_filepath)`. -/

/-- A Python value used as a factor identifier: the external reader may
expose integer indices or string names. -/
inductive PyVal
  | int (k : Int)
  | str (s : String)
deriving DecidableEq

/-- Modelled from the spec: the in-memory model handle returned by
`mfx.mofa_model`, exposing shape, group names, view names, factor
identifiers, and the weight and variance-explained tables served by its
accessor methods. -/
structure MofaModel where
  shape : Nat × Nat
  groups : List String
  views : List String
  factors : List PyVal
  weights : DataFrame
  variance : DataFrame
deriving DecidableEq

/-- Modelled from the spec: `m.get_weights(df=True)` returns the weight
table (rows = features, columns = factors). -/
def get_weights (m : MofaModel) (_df : Bool) : DataFrame :=
  m.weights

/-- Modelled from the spec: `m.calculate_variance_explained()` returns the
variance-explained table. -/
def calculate_variance_explained (m : MofaModel) : DataFrame :=
  m.variance

/-- Lines 173-174: the weights CSV offered for download,
`m.get_weights(df=True).to_csv(index=False)`. -/
def weightsExportCsv (m : MofaModel) : List (List String) :=
  (get_weights m true).to_csv false

/-- Lines 184-188: the variance CSV offered for download,
`m.calculate_variance_explained().to_csv(index=False)`. -/
def varianceExportCsv (m : MofaModel) : List (List String) :=
  (calculate_variance_explained m).to_csv false

/-! ## Widgets and call-site arguments -/

/-- Ephemeral widget state of one run: the position the user picked in the
factor select-box, the slider position the user asked for, and whether each
export button was clicked. -/
structure Widgets where
  factorIdx : Nat
  nFeaturesRequested : Int
  weightsClicked : Bool
  varianceClicked : Bool
deriving DecidableEq

/-- Modelled from the spec: `st.slider` returns a value confined to the
widget-imposed `[min_value, max_value]` range. -/
def st_slider (minValue maxValue value : Int) : Int :=
  max minValue (min maxValue value)

/-- Lines 162-166: `n_features = st.slider("Number of Features to Display",
min_value=1, max_value=20, value=5)`. -/
def n_features (w : Widgets) : Int :=
  st_slider 1 20 w.nFeaturesRequested

/-- Modelled from the spec: `st.selectbox` returns the option the user
picked from the option list, the first option by default, and `None` when
the option list is empty. -/
def st_selectbox (options : List PyVal) (idx : Nat) : Option PyVal :=
  if h : idx < options.length then some (options.get ⟨idx, h⟩)
  else options.head?

/-- Line 161: `selected_factor = st.selectbox("Select Factor", m.factors)`. -/
def selected_factor (m : MofaModel) (w : Widgets) : Option PyVal :=
  st_selectbox m.factors w.factorIdx

/-- Modelled from the spec: the feature-limited plotting routines truncate
the display to the first `n` features. -/
def displayedFeatures (n : Nat) (featureNames : List String) : List String :=
  featureNames.take n

/-- Python `range(a, b)` over integers. -/
def pyRange2 (a b : Int) : List Int :=
  (List.range (b - a).toNat).map (fun k => a + (k : Int))

/-- The argument record of the `mfx.plot_weights_heatmap` call at lines
199-206 (float-valued styling arguments are not modelled). -/
structure HeatmapCall where
  n_features : Int
  factors : List Int
  xticklabels_size : Nat
  w_abs : Bool
  cmap : String
  displayed : List String
deriving DecidableEq

/-- Lines 199-206: `mfx.plot_weights_heatmap(m, n_features=n_features,
factors=range(0, 10), xticklabels_size=6, w_abs=True, cmap="viridis")`. -/
def heatmapCall (m : MofaModel) (w : Widgets) : HeatmapCall :=
  { n_features := n_features w
    factors := pyRange2 0 10
    xticklabels_size := 6
    w_abs := true
    cmap := "viridis"
    displayed := displayedFeatures (n_features w).toNat m.weights.index }

/-- The argument record of the `mfx.plot_weights_ranked` call at lines
213-219 (float-valued styling arguments are not modelled). -/
structure RankedCall where
  factor : Option PyVal
  n_features : Int
  x_rank_offset : Int
  displayed : List String
deriving DecidableEq

/-- Lines 213-219: `mfx.plot_weights_ranked(m, factor=selected_factor,
n_features=n_features, y_repel_coef=0.04, x_rank_offset=-150)`. -/
def rankedCall (m : MofaModel) (w : Widgets) : RankedCall :=
  { factor := selected_factor m w
    n_features := n_features w
    x_rank_offset := -150
    displayed := displayedFeatures (n_features w).toNat m.weights.index }

/-- A Python exception kind raised by a call-site argument computation. -/
inductive PyErr
  | typeError
deriving DecidableEq

/-- Python `range(k)` for an integer upper bound, as a list (empty when
`k ≤ 0`). -/
def pyRange (k : Int) : List Int :=
  (List.range k.toNat).map (fun (j : Nat) => (j : Int))

/-- Python `list(range(v))`: defined when `v` is an integer (empty when
`v ≤ 0`), a `TypeError` when `v` is a string or `None` (the select-box
value when the factor list is empty). -/
def pyRangeOf : Option PyVal → Except PyErr (List Int)
  | some (.int k) => .ok (pyRange k)
  | some (.str _) => .error .typeError
  | none => .error .typeError

/-- Line 227: the `factors` argument of `m.get_r2` in the Variance Analysis
tab, `list(range(selected_factor))`. -/
def r2FactorsArg (m : MofaModel) (w : Widgets) : Except PyErr (List Int) :=
  pyRangeOf (selected_factor m w)

/-! ## The rendered page -/

instance {ε α : Type} [DecidableEq ε] [DecidableEq α] :
    DecidableEq (Except ε α) := fun a b =>
  match a, b with
  | .ok x, .ok y =>
    match decEq x y with
    | isTrue h => isTrue (congrArg Except.ok h)
    | isFalse h => isFalse (fun hc => h (Except.ok.inj hc))
  | .error x, .error y =>
    match decEq x y with
    | isTrue h => isTrue (congrArg Except.error h)
    | isFalse h => isFalse (fun hc => h (Except.error.inj hc))
  | .ok _, .error _ => isFalse (fun hc => Except.noConfusion hc)
  | .error _, .ok _ => isFalse (fun hc => Except.noConfusion hc)

/-- One rendered element of the page. -/
inductive Element
  | metric (label value : String)
  | download (label fileName mime : String) (data : List (List String))
  | heatmap (call : HeatmapCall)
  | ranked (call : RankedCall)
  | errorMsg (text : String)
  | varianceSection (factorsArg : Except PyErr (List Int))
  | corrMatrix (source : DataFrame)
  | welcome
deriving DecidableEq

/-- Lines 132-156: the three metric cards, `"{:,}".format(m.shape[0])`,
`"{:,}".format(m.shape[1])` and `"{}".format(len(m.groups))`. -/
def metricElements (m : MofaModel) : List Element :=
  [Element.metric "Total Cells" (commaFormat m.shape.1),
   Element.metric "Features" (commaFormat m.shape.2),
   Element.metric "Groups" (String.mk (natToChars m.groups.length))]

/-- Lines 168-191: the two export buttons and the download buttons they
reveal when clicked. -/
def exportElements (m : MofaModel) (w : Widgets) : List Element :=
  (if w.weightsClicked then
    [Element.download "Download CSV" "weights_data.csv" "text/csv"
      (weightsExportCsv m)]
  else []) ++
  (if w.varianceClicked then
    [Element.download "Download CSV" "variance_explained.csv" "text/csv"
      (varianceExportCsv m)]
  else [])

/-- Lines 196-208: the Feature Weights tab. -/
def heatmapElements (m : MofaModel) (w : Widgets) : List Element :=
  [Element.heatmap (heatmapCall m w)]

/-- Lines 210-223: the Ranked Weights tab (success branch of the
try/except). -/
def rankedElements (m : MofaModel) (w : Widgets) : List Element :=
  [Element.ranked (rankedCall m w)]

/-- Lines 225-238: the Variance Analysis tab, recording the `factors`
argument handed to `m.get_r2`. -/
def varianceElements (m : MofaModel) (w : Widgets) : List Element :=
  [Element.varianceSection (r2FactorsArg m w)]

/-- Lines 240-253: the Correlation Matrix tab,
`m.get_weights(df=True).corr()`. -/
def corrElements (m : MofaModel) (_w : Widgets) : List Element :=
  [Element.corrMatrix (get_weights m true)]

/-- The statements of the script body after the handle is constructed, in
source order, each as a state transformer on the handle: the handle the
statement leaves behind together with the elements it renders. -/
def scriptSteps (w : Widgets) : List (MofaModel → MofaModel × List Element) :=
  [fun m => (m, metricElements m),
   fun m => (m, exportElements m w),
   fun m => (m, heatmapElements m w),
   fun m => (m, rankedElements m w),
   fun m => (m, varianceElements m w),
   fun m => (m, corrElements m w)]

/-- Run the script statements in order, threading the handle. -/
def runSteps (w : Widgets) (m : MofaModel) : MofaModel × List Element :=
  (scriptSteps w).foldl
    (fun acc step => ((step acc.1).1, acc.2 ++ (step acc.1).2)) (m, [])

/-- The page rendered for a loaded model under widget state `w`. -/
def pageOf (m : MofaModel) (w : Widgets) : List Element :=
  (runSteps w m).2

/-! ## The sidebar download buttons as data

Lines 172-191 wire up exactly two download buttons, each with a fixed file
name, a label, and a MIME type, serializing one table each. -/

/-- Which table a download serializes. -/
inductive TableKind
  | weights
  | variance
  | factors
deriving DecidableEq

/-- A download button's static configuration. -/
structure DownloadSpec where
  label : String
  file_name : String
  mime : String
  table : TableKind
deriving DecidableEq

/-- The download buttons wired up in the sidebar (lines 175-180 and
186-191). -/
def downloadOutputs : List DownloadSpec :=
  [⟨"Download CSV", "weights_data.csv", "text/csv", TableKind.weights⟩,
   ⟨"Download CSV", "variance_explained.csv", "text/csv", TableKind.variance⟩]

/-! ## Run semantics: temporary files and re-runs

Lines 118-263: on every interaction the whole script re-executes; when a
file is uploaded, its bytes are written to a fresh temporary file
(`tempfile.NamedTemporaryFile(delete=False)`, lines 124-126) and the model
is opened from that file (line 129). -/

/-- A file persisted on the server's file system. -/
structure TempFile where
  name : String
  contents : List Nat
deriving DecidableEq

/-- The uploaded byte stream handed over by `st.file_uploader`. -/
structure UploadedFile where
  name : String
  bytes : List Nat
deriving DecidableEq

/-- Modelled from the spec: `tempfile.NamedTemporaryFile` picks a path not
currently in use. -/
def freshName (fs : List TempFile) : String :=
  String.mk ('t' :: 'm' :: 'p' :: natToChars fs.length)

/-- One full execution of the script body: when a file is uploaded the run
writes its bytes to a fresh temporary file, opens the model from that file
and renders the page; otherwise it renders the welcome message. `reader` is
the external `mfx.mofa_model` parser, an arbitrary function from file
contents to a handle. Returns the file system left behind and the rendered
page. -/
def runScript (reader : List Nat → MofaModel) (fs : List TempFile)
    (upload : Option UploadedFile) (w : Widgets) :
    List TempFile × List Element :=
  match upload with
  | none => (fs, [Element.welcome])
  | some f =>
    let tmp : TempFile := ⟨freshName fs, f.bytes⟩
    let m := reader tmp.contents
    (fs ++ [tmp], pageOf m w)

/-! ## Failure semantics

Lines 212-223 wrap exactly one external call, `mfx.plot_weights_ranked`, in
a `try/except` whose handler shows `st.error(...)`; every other external
call is unguarded, so an exception there aborts the render. -/

/-- The external call sites of one run on an uploaded file that can raise. -/
inductive CallSite
  | saveUpload
  | openModel
  | exportWeights
  | exportVariance
  | heatmap
  | ranked
  | varianceR2
  | correlation
deriving DecidableEq

/-- The inline message shown by the line-223 handler (`st.error(f"Failed to
plot ranked weights: {str(e)}")`; the interpolated exception text is not
modelled). -/
def rankedErrText : String :=
  "Failed to plot ranked weights"

/-- One run on a loaded model under a failure oracle saying which external
calls raise. The ranked-weights plotting call is the only guarded one: its
failure renders as an inline error element and the run continues; a failure
at any other (reached) site aborts the render, propagating that site's
exception. Export call sites are reached only when their button was
clicked. -/
def renderRun (oracle : CallSite → Bool) (m : MofaModel) (w : Widgets) :
    Except CallSite (List Element) :=
  if oracle .saveUpload then .error .saveUpload
  else if oracle .openModel then .error .openModel
  else if w.weightsClicked && oracle .exportWeights then .error .exportWeights
  else if w.varianceClicked && oracle .exportVariance then
    .error .exportVariance
  else if oracle .heatmap then .error .heatmap
  else if oracle .varianceR2 then .error .varianceR2
  else if oracle .correlation then .error .correlation
  else
    .ok (metricElements m ++ exportElements m w ++ heatmapElements m w ++
      (if oracle .ranked then [Element.errorMsg rankedErrText]
       else rankedElements m w) ++
      varianceElements m w ++ corrElements m w)

/-! ## Concrete fixtures used by the witness theorems -/

/-- A small concrete weight table: two features, two factors. -/
def dfEx : DataFrame :=
  ⟨["feat1", "feat2"], ["Factor0", "Factor1"], [[3, -4], [0, 12]]⟩

/-- A small concrete model handle. -/
def mEx : MofaModel :=
  ⟨(100, 2), ["group1"], ["view1"], [.int 0, .int 1], dfEx, dfEx⟩

/-- A model handle whose factor identifiers are strings. -/
def mExStr : MofaModel :=
  ⟨(100, 2), ["group1"], ["view1"], [.str "Factor0", .str "Factor1"],
    dfEx, dfEx⟩

/-- A concrete widget state: second factor selected, slider at 5, both
export buttons clicked. -/
def wEx : Widgets :=
  ⟨1, 5, true, true⟩

/-- A concrete uploaded file. -/
def fEx : UploadedFile :=
  ⟨"model.hdf5", [1, 2, 3]⟩

/-! ## Codec lemmas -/

theorem charToDigit_digitChar {d : Nat} (hd : d < 10) :
    charToDigit (Nat.digitChar d) = some d := by
  interval_cases d <;> rfl

theorem isDigitChar_digitChar {d : Nat} (hd : d < 10) :
    isDigitChar (Nat.digitChar d) = true := by
  interval_cases d <;> rfl

theorem digitVals_map_digitChar (ds : List Nat) (h : ∀ d ∈ ds, d < 10) :
    digitVals (ds.map Nat.digitChar) = some ds := by
  induction ds with
  | nil => rfl
  | cons d ds ih =>
    have hd : d < 10 := h d (List.mem_cons_self d ds)
    have hds : ∀ x ∈ ds, x < 10 := fun x hx => h x (List.mem_cons_of_mem d hx)
    simp only [List.map_cons, digitVals, charToDigit_digitChar hd, ih hds]

theorem natToChars_ne_nil (n : Nat) : natToChars n ≠ [] := by
  unfold natToChars
  split
  · simp
  · next h =>
    simp only [ne_eq, List.reverse_eq_nil_iff, List.map_eq_nil_iff]
    exact Nat.digits_ne_nil_iff_ne_zero.mpr h

theorem natToChars_digits (n : Nat) :
    ∀ c ∈ natToChars n, isDigitChar c = true := by
  intro c hc
  unfold natToChars at hc
  split at hc
  · simp only [List.mem_singleton] at hc
    subst hc
    decide
  · rw [List.mem_reverse, List.mem_map] at hc
    obtain ⟨d, hd, rfl⟩ := hc
    exact isDigitChar_digitChar (Nat.digits_lt_base (by norm_num) hd)

theorem parseNatChars_natToChars (n : Nat) :
    parseNatChars (natToChars n) = some n := by
  unfold natToChars
  split
  · next h => subst h; rfl
  · next h =>
    have hne : Nat.digits 10 n ≠ [] := Nat.digits_ne_nil_iff_ne_zero.mpr h
    have hlt : ∀ d ∈ Nat.digits 10 n, d < 10 := fun d hd =>
      Nat.digits_lt_base (by norm_num) hd
    have hvals : digitVals (((Nat.digits 10 n).map Nat.digitChar).reverse)
        = some (Nat.digits 10 n).reverse := by
      rw [← List.map_reverse]
      exact digitVals_map_digitChar _ (by simpa using hlt)
    unfold parseNatChars
    match hcs : ((Nat.digits 10 n).map Nat.digitChar).reverse with
    | [] =>
      exfalso
      rw [List.reverse_eq_nil_iff, List.map_eq_nil_iff] at hcs
      exact hne hcs
    | c :: rest =>
      rw [hcs] at hvals
      simp only [hvals, List.reverse_reverse, Nat.ofDigits_digits]

theorem head_natToChars_ne_dash (n : Nat) (c : Char) (rest : List Char)
    (h : natToChars n = c :: rest) : c ≠ '-' := by
  have hdig : isDigitChar c = true :=
    natToChars_digits n c (by rw [h]; exact List.mem_cons_self c rest)
  intro hceq
  rw [hceq] at hdig
  exact absurd hdig (by decide)

theorem parseIntChars_intToChars (i : Int) :
    parseIntChars (intToChars i) = some i := by
  unfold intToChars
  split
  · next hneg =>
    have h2 : -((i.natAbs : ℕ) : ℤ) = i := by omega
    simp only [parseIntChars, if_pos rfl, parseNatChars_natToChars]
    exact congrArg some h2
  · next hpos =>
    have h3 : ((i.toNat : ℕ) : ℤ) = i := by omega
    match hcs : natToChars i.toNat with
    | [] => exact absurd hcs (natToChars_ne_nil _)
    | c :: rest =>
      have hc : c ≠ '-' := head_natToChars_ne_dash _ _ _ hcs
      simp only [parseIntChars, if_neg hc, ← hcs, parseNatChars_natToChars]
      exact congrArg some h3

theorem parseIntField_intField (i : Int) :
    parseIntField (intField i) = some i :=
  parseIntChars_intToChars i

/-! ## Thousands-separator lemmas -/

theorem chunk3_join (l : List Char) : (chunk3 l).flatten = l := by
  induction l using chunk3.induct with
  | case1 => rfl
  | case2 a => rfl
  | case3 a b => rfl
  | case4 a b c rest ih => simp [chunk3, ih]

theorem filter_joinComma (L : List (List Char))
    (h : ∀ g ∈ L, ∀ c ∈ g, c ≠ ',') :
    (joinComma L).filter (fun c => c ≠ ',') = L.flatten := by
  induction L using joinComma.induct with
  | case1 => rfl
  | case2 g =>
    simp only [joinComma, List.flatten_cons, List.flatten_nil, List.append_nil]
    refine List.filter_eq_self.mpr (fun c hc => ?_)
    simpa using h g (List.mem_singleton.mpr rfl) c hc
  | case3 g g' gs ih =>
    have hg : ∀ c ∈ g, c ≠ ',' := h g (List.mem_cons_self _ _)
    have htail : ∀ x ∈ g' :: gs, ∀ c ∈ x, c ≠ ',' :=
      fun x hx => h x (List.mem_cons_of_mem _ hx)
    simp only [joinComma, List.filter_append, List.filter_cons,
      decide_eq_true_eq]
    rw [if_neg (by simp)]
    rw [List.filter_eq_self.mpr (fun c hc => by simpa using hg c hc), ih htail]
    simp

theorem parseCommaNat_commaFormat (n : Nat) :
    parseCommaNat (commaFormat n) = some n := by
  unfold commaFormat
  split
  · next h => subst h; rfl
  · next h =>
    have hlt : ∀ d ∈ Nat.digits 10 n, d < 10 := fun d hd =>
      Nat.digits_lt_base (by norm_num) hd
    have hdig : ∀ g ∈ chunk3 ((Nat.digits 10 n).map Nat.digitChar),
        ∀ c ∈ g, c ≠ ',' := by
      intro g hg c hc
      have hcj : c ∈ (chunk3 ((Nat.digits 10 n).map Nat.digitChar)).flatten :=
        List.mem_flatten.mpr ⟨g, hg, hc⟩
      rw [chunk3_join, List.mem_map] at hcj
      obtain ⟨d, hd, rfl⟩ := hcj
      have := isDigitChar_digitChar (hlt d hd)
      intro hceq
      rw [hceq] at this
      exact absurd this (by decide)
    unfold parseCommaNat
    have hdata : (String.mk ((joinComma (chunk3 ((Nat.digits 10 n).map
        Nat.digitChar))).reverse)).data
        = (joinComma (chunk3 ((Nat.digits 10 n).map
            Nat.digitChar))).reverse := rfl
    rw [hdata, List.filter_reverse, filter_joinComma _ hdig, chunk3_join]
    have : ((Nat.digits 10 n).map Nat.digitChar).reverse = natToChars n := by
      unfold natToChars
      rw [if_neg h]
    rw [this, parseNatChars_natToChars]

/-! ## CSV record lemmas -/

theorem parseRow_map_intField (row : List Int) :
    parseRow (row.map intField) = some row := by
  induction row with
  | nil => rfl
  | cons i row ih =>
    simp only [List.map_cons, parseRow, parseIntField_intField, ih]

theorem parseRows_map_intField (rows : List (List Int)) :
    parseRows (rows.map (fun row => row.map intField)) = some rows := by
  induction rows with
  | nil => rfl
  | cons r rows ih =>
    simp only [List.map_cons, parseRows, parseRow_map_intField, ih]

/-! ## Claim theorems -/

/-- C1: re-parsing the exported weights CSV (written by
`m.get_weights(df=True).to_csv(index=False)`, lines 173-174) yields a table
with the same shape, the same values, and the same column set as the
in-memory weight table returned by the weights accessor. -/
theorem C1_weights_csv_roundtrip (m : MofaModel) :
    ∃ df' : DataFrame,
      read_csv (weightsExportCsv m) = some df' ∧
      df'.shape = (get_weights m true).shape ∧
      df'.values = (get_weights m true).values ∧
      df'.columns = (get_weights m true).columns := by
  refine ⟨⟨(List.range (get_weights m true).values.length).map
      (fun k => String.mk (natToChars k)),
    (get_weights m true).columns, (get_weights m true).values⟩,
    ?_, rfl, rfl, rfl⟩
  have h : weightsExportCsv m =
      (get_weights m true).columns ::
        (get_weights m true).values.map (fun row => row.map intField) := rfl
  rw [h]
  simp only [read_csv, parseRows_map_intField]

/-- C2: exactly one failure path is explicitly caught — the ranked-weights
plotting call, whose exception is rendered as an inline error message with
the rest of the page intact — while a failure at any other call site aborts
the render. Part one: every aborted render was aborted by an unguarded,
non-ranked call site that did raise. Part two: when only the ranked call
raises, the run still succeeds and produces the full page with the inline
error in place of the ranked chart. Part three: a raise at any single
non-ranked call site (both export buttons clicked, so all sites are
reached) aborts the render with that exception. -/
theorem C2_error_tiers :
    (∀ (oracle : CallSite → Bool) (m : MofaModel) (w : Widgets)
        (s : CallSite),
      renderRun oracle m w = .error s →
        oracle s = true ∧ s ≠ CallSite.ranked) ∧
    (∀ (m : MofaModel) (w : Widgets),
      renderRun (fun s => s == CallSite.ranked) m w =
        .ok (metricElements m ++ exportElements m w ++ heatmapElements m w ++
          [Element.errorMsg rankedErrText] ++
          varianceElements m w ++ corrElements m w) ∧
      renderRun (fun _ => false) m w =
        .ok (metricElements m ++ exportElements m w ++ heatmapElements m w ++
          rankedElements m w ++ varianceElements m w ++ corrElements m w)) ∧
    (∀ (m : MofaModel) (w : Widgets) (s : CallSite),
      w.weightsClicked = true → w.varianceClicked = true →
      s ≠ CallSite.ranked →
      renderRun (fun t => t == s) m w = .error s) := by
  refine ⟨?_, ?_, ?_⟩
  · intro oracle m w s h
    unfold renderRun at h
    split_ifs at h with h1 h2 h3 h4 h5 h6 h7
    · cases h; exact ⟨h1, by decide⟩
    · cases h; exact ⟨h2, by decide⟩
    · cases h; exact ⟨((Bool.and_eq_true _ _).mp h3).2, by decide⟩
    · cases h; exact ⟨((Bool.and_eq_true _ _).mp h4).2, by decide⟩
    · cases h; exact ⟨h5, by decide⟩
    · cases h; exact ⟨h6, by decide⟩
    · cases h; exact ⟨h7, by decide⟩
  · intro m w
    constructor <;> simp [renderRun]
  · intro m w s hw hv hs
    cases s
    case ranked => exact absurd rfl hs
    all_goals simp [renderRun, hw, hv]

/-- C3: the slider-returned feature count lies in `[1, 20]` for every
requested slider position, and both feature-limited views (the heatmap call
and the ranked-weights call) display at most that many features. -/
theorem C3_feature_count_bounds (m : MofaModel) (w : Widgets) :
    1 ≤ n_features w ∧ n_features w ≤ 20 ∧
    (heatmapCall m w).displayed.length ≤ (n_features w).toNat ∧
    (rankedCall m w).displayed.length ≤ (n_features w).toNat := by
  refine ⟨?_, ?_, ?_, ?_⟩
  · simp only [n_features, st_slider]
    omega
  · simp only [n_features, st_slider]
    omega
  · simp only [heatmapCall, displayedFeatures]
    exact List.length_take_le _ _
  · simp only [rankedCall, displayedFeatures]
    exact List.length_take_le _ _

/-- C4: the three displayed metrics are exactly the handle's own attributes
`m.shape[0]`, `m.shape[1]` and `len(m.groups)` passed through the format
strings `"{:,}"` / `"{}"` (lines 132-156), and that formatting is lossless:
re-parsing each displayed string recovers the attribute exactly. -/
theorem C4_metrics_passthrough (m : MofaModel) :
    metricElements m =
      [Element.metric "Total Cells" (commaFormat m.shape.1),
       Element.metric "Features" (commaFormat m.shape.2),
       Element.metric "Groups" (String.mk (natToChars m.groups.length))] ∧
    parseCommaNat (commaFormat m.shape.1) = some m.shape.1 ∧
    parseCommaNat (commaFormat m.shape.2) = some m.shape.2 ∧
    parseNatChars (natToChars m.groups.length) = some m.groups.length :=
  ⟨rfl, parseCommaNat_commaFormat _, parseCommaNat_commaFormat _,
    parseNatChars_natToChars _⟩

/-- C5 counterexample: the claim lists a factor-table download among the
download outputs, but the script wires up exactly two download buttons —
weights and variance-explained — and none serializes a factor table. -/
theorem C5_no_factor_table_download :
    (¬ ∃ d ∈ downloadOutputs, d.table = TableKind.factors) ∧
    downloadOutputs.map DownloadSpec.table =
      [TableKind.weights, TableKind.variance] ∧
    (exportElements mEx wEx).length = 2 := by
  decide

/-- C5 amended: the download outputs are flat comma-separated text files
for the weights and variance-explained tables only, each offered with a
fixed file name (`weights_data.csv`, `variance_explained.csv`), the label
`Download CSV`, and MIME type `text/csv`. -/
theorem C5_download_outputs (m : MofaModel) (w : Widgets)
    (hw : w.weightsClicked = true) (hv : w.varianceClicked = true) :
    exportElements m w =
      [Element.download "Download CSV" "weights_data.csv" "text/csv"
        (weightsExportCsv m),
       Element.download "Download CSV" "variance_explained.csv" "text/csv"
        (varianceExportCsv m)] ∧
    ∀ d ∈ downloadOutputs, d.mime = "text/csv" ∧ d.label = "Download CSV" := by
  constructor
  · simp [exportElements, hw, hv]
  · decide

theorem C5_download_outputs_witness :
    exportElements mEx wEx =
      [Element.download "Download CSV" "weights_data.csv" "text/csv"
        (weightsExportCsv mEx),
       Element.download "Download CSV" "variance_explained.csv" "text/csv"
        (varianceExportCsv mEx)] ∧
    ∀ d ∈ downloadOutputs, d.mime = "text/csv" ∧ d.label = "Download CSV" :=
  C5_download_outputs mEx wEx rfl rfl

/-- C6: the rendered page of a run is determined only by that run's
uploaded file and widget state — running after any earlier run (whose
temporary file is still on disk) renders the same page as running from any
other file-system state, and that page is a function of the uploaded bytes
and the widgets alone. -/
theorem C6_rerun_independence (reader : List Nat → MofaModel)
    (fs : List TempFile) (f1 f2 : UploadedFile) (w1 w2 : Widgets) :
    (runScript reader (runScript reader fs (some f1) w1).1
        (some f2) w2).2 =
      (runScript reader fs (some f2) w2).2 ∧
    (runScript reader fs (some f2) w2).2 = pageOf (reader f2.bytes) w2 :=
  ⟨rfl, rfl⟩

/-- C7: a run on an uploaded file writes the uploaded byte stream to a
fresh temporary file, the model handle is constructed by the external
reader from that temporary file's contents, and no file is ever deleted:
every pre-existing temporary file survives the run. -/
theorem C7_tempfile_lifecycle (reader : List Nat → MofaModel)
    (fs : List TempFile) (f : UploadedFile) (w : Widgets) :
    (∀ t ∈ fs, t ∈ (runScript reader fs (some f) w).1) ∧
    (∃ tmp : TempFile,
      (runScript reader fs (some f) w).1 = fs ++ [tmp] ∧
      tmp.contents = f.bytes ∧
      (runScript reader fs (some f) w).2 = pageOf (reader tmp.contents) w) := by
  refine ⟨fun t ht => ?_, ⟨⟨freshName fs, f.bytes⟩, rfl, rfl, rfl⟩⟩
  exact List.mem_append_left _ ht

theorem C7_tempfile_lifecycle_witness :
    (∀ t ∈ ([⟨"old", [9]⟩] : List TempFile),
      t ∈ (runScript (fun _ => mEx) [⟨"old", [9]⟩] (some fEx) wEx).1) ∧
    (∃ tmp : TempFile,
      (runScript (fun _ => mEx) [⟨"old", [9]⟩] (some fEx) wEx).1 =
        [⟨"old", [9]⟩] ++ [tmp] ∧
      tmp.contents = fEx.bytes ∧
      (runScript (fun _ => mEx) [⟨"old", [9]⟩] (some fEx) wEx).2 =
        pageOf mEx wEx) :=
  C7_tempfile_lifecycle (fun _ => mEx) [⟨"old", [9]⟩] fEx wEx

/-- C8: the model handle is read-only after construction — every statement
of the script body leaves the handle unchanged, and so does the whole
sequence of statements. -/
theorem C8_handle_readonly (w : Widgets) (m : MofaModel) :
    (∀ step ∈ scriptSteps w, (step m).1 = m) ∧ (runSteps w m).1 = m := by
  constructor
  · intro step hstep
    simp only [scriptSteps, List.mem_cons, List.not_mem_nil, or_false]
      at hstep
    rcases hstep with rfl | rfl | rfl | rfl | rfl | rfl <;> rfl
  · rfl

theorem C8_handle_readonly_witness :
    (∀ step ∈ scriptSteps wEx, (step mEx).1 = mEx) ∧
    (runSteps wEx mEx).1 = mEx :=
  C8_handle_readonly wEx mEx

/-- C9: the factor list handed to `m.get_r2` in the Variance Analysis tab
is `list(range(selected_factor))` (line 227): when the selected factor
identifier is an integer `k` the list is `0..k-1`, which never contains `k`
itself and is empty for `k = 0`; when the identifier is not an integer
(a string name, or `None` from an empty select-box) the unguarded call
raises a `TypeError`. -/
theorem C9_variance_factors_arg (m : MofaModel) (w : Widgets) :
    (∀ k : Int, selected_factor m w = some (PyVal.int k) →
      r2FactorsArg m w = .ok (pyRange k) ∧
      k ∉ pyRange k ∧
      (k = 0 → r2FactorsArg m w = .ok [])) ∧
    (∀ s : String, selected_factor m w = some (PyVal.str s) →
      r2FactorsArg m w = .error PyErr.typeError) ∧
    (selected_factor m w = none →
      r2FactorsArg m w = .error PyErr.typeError) := by
  refine ⟨?_, ?_, ?_⟩
  · intro k hk
    refine ⟨?_, ?_, ?_⟩
    · unfold r2FactorsArg
      rw [hk]
      rfl
    · intro hmem
      unfold pyRange at hmem
      rw [List.mem_map] at hmem
      obtain ⟨j, hj, hjk⟩ := hmem
      rw [List.mem_range] at hj
      omega
    · intro hk0
      subst hk0
      unfold r2FactorsArg
      rw [hk]
      rfl
  · intro s hs
    unfold r2FactorsArg
    rw [hs]
    rfl
  · intro h
    unfold r2FactorsArg
    rw [h]
    rfl

theorem C9_variance_factors_arg_witness :
    (r2FactorsArg mEx wEx = .ok (pyRange 1) ∧
      (1 : Int) ∉ pyRange 1 ∧
      ((1 : Int) = 0 → r2FactorsArg mEx wEx = .ok [])) ∧
    r2FactorsArg mExStr wEx = .error PyErr.typeError :=
  ⟨(C9_variance_factors_arg mEx wEx).1 1 (by decide),
   (C9_variance_factors_arg mExStr wEx).2.1 "Factor1" (by decide)⟩

/-- C10: the Feature Weights heatmap is always invoked with the fixed
factor index range `range(0, 10)`, independent of the model and of the
widget state. -/
theorem C10_heatmap_factor_range (m m' : MofaModel) (w w' : Widgets) :
    (heatmapCall m w).factors = pyRange2 0 10 ∧
    pyRange2 0 10 = [0, 1, 2, 3, 4, 5, 6, 7, 8, 9] ∧
    (heatmapCall m w).factors = (heatmapCall m' w').factors :=
  ⟨rfl, by decide, rfl⟩

theorem C2_error_tiers_witness :
    renderRun (fun t => t == CallSite.openModel) mEx wEx =
      Except.error CallSite.openModel ∧
    ((fun t => t == CallSite.openModel) CallSite.openModel = true ∧
      CallSite.openModel ≠ CallSite.ranked) ∧
    renderRun (fun s => s == CallSite.ranked) mEx wEx =
      Except.ok (metricElements mEx ++ exportElements mEx wEx ++
        heatmapElements mEx wEx ++ [Element.errorMsg rankedErrText] ++
        varianceElements mEx wEx ++ corrElements mEx wEx) :=
  have herr : renderRun (fun t => t == CallSite.openModel) mEx wEx =
      Except.error CallSite.openModel :=
    C2_error_tiers.2.2 mEx wEx CallSite.openModel rfl rfl (by decide)
  ⟨herr, C2_error_tiers.1 _ mEx wEx _ herr, (C2_error_tiers.2.1 mEx wEx).1⟩

end MofaxOnline
